import Mathlib

/-!
Verification development for the FreshIn engine repository.

This file shallowly embeds the merge/routing core of the repository
(src/freshin_ingest_v27.65.py, src/freshin_meta_merger_v27.72.py,
src/vdb_freshin_engine.py) into Lean 4 and proves or refutes the frozen
claims about it.

Part 1 models the cell values and the pandas DataFrame operations used by
the two merger scripts (is_empty, normalize_imdb_id, _update_value, the
save-time schema guard).  Part 2 models the JSON payloads and the
classify/route/execute orchestrator of vdb_freshin_engine.py.
-/

/-! ## Part 1: cell values and the two merger scripts -/

/-- Python `str.strip()` with no argument: remove surrounding whitespace.
(Defined on the character list so that it evaluates inside the kernel.) -/
def pyStrip (s : String) : String :=
  String.mk (((s.toList.dropWhile Char.isWhitespace).reverse.dropWhile Char.isWhitespace).reverse)

/-- Does the second character list lead the first? -/
def leadEq : List Char → List Char → Bool
  | _, [] => true
  | [], _ :: _ => false
  | a :: as, b :: bs => a = b && leadEq as bs

/-- Python `str.startswith`. -/
def pyStarts (s pre : String) : Bool := leadEq s.toList pre.toList

/-- Python `str.lower()` (ASCII names only are ever passed in). -/
def pyLowerStr (s : String) : String := String.mk (s.toList.map Char.toLower)

/-- A scalar value as it can appear in a DataFrame cell or be passed to
`_update_value`.  `vnone` is Python `None`, `vnan` is a floating-point NaN,
`vfloat` models non-NaN floats as rationals. -/
inductive Value where
  | vnone
  | vnan
  | vstr (s : String)
  | vint (n : Int)
  | vfloat (q : Rat)
deriving DecidableEq, Repr

open Value

/-- Model of `pd.isna` on the scalar types above: true exactly for `None`
and float NaN. -/
def pdIsna : Value → Bool
  | vnone => true
  | vnan => true
  | _ => false

/-- EMPTY_VALUES of src/freshin_meta_merger_v27.72.py (includes
"undefined"). -/
def EMPTY_VALUES_MERGER : List String :=
  ["", "None", "none", "nan", "NaN", "NULL", "null", "N/A", "n/a", "<NA>", "undefined"]

/-- EMPTY_VALUES of src/freshin_ingest_v27.65.py (no "undefined"). -/
def EMPTY_VALUES_INGEST : List String :=
  ["", "None", "none", "nan", "NaN", "NULL", "null", "N/A", "n/a", "<NA>"]

/-- Shared shape of both `is_empty` implementations:
`val is None or pd.isna(val)`, then for strings `val.strip() in EMPTY_VALUES`,
otherwise False.  Python str.strip() with no argument removes surrounding
whitespace, modelled by `pyStrip`. -/
def is_empty_with (empties : List String) : Value → Bool
  | vnone => true
  | vnan => true
  | vstr s => empties.contains (pyStrip s)
  | _ => false

/-- `is_empty` of freshin_meta_merger_v27.72.py. -/
def is_empty_merger (v : Value) : Bool := is_empty_with EMPTY_VALUES_MERGER v

/-- `is_empty` of freshin_ingest_v27.65.py. -/
def is_empty_ingest (v : Value) : Bool := is_empty_with EMPTY_VALUES_INGEST v

/-- Python `str()` of the scalar values, as far as the normalizer needs it.
A non-NaN float never prints as a pure digit string in Python (its repr
contains a dot or an exponent); the model keeps that property by always
including a non-digit character. -/
def pyStr : Value → String
  | vnone => "None"
  | vnan => "nan"
  | vstr s => s
  | vint n => toString n
  | vfloat q => if q.den = 1 then toString q.num ++ ".0" else toString q

/-- Python `str.isdigit` restricted to ASCII digits: non-empty and all
characters are digits. -/
def isDigits (s : String) : Bool :=
  s ≠ "" && s.toList.all Char.isDigit

/-- Python `str.zfill`: left-pad with zeros to the given width (inputs here
are unsigned digit strings, so the sign handling of zfill never fires). -/
def zfill (w : Nat) (s : String) : String :=
  if s.length ≥ w then s else String.mk (List.replicate (w - s.length) '0') ++ s

/-- `normalize_imdb_id` of freshin_meta_merger_v27.72.py (the ingest script
contains the very same function): empty input gives None, a digit string
gives the tt-prefixed zero-padded form, a string already starting with
"tt" is returned unchanged, and everything else gives None. -/
def normalize_imdb_id (val : Value) : Option String :=
  if is_empty_merger val then none
  else
    let s := pyStrip (pyStr val)
    if isDigits s then some ("tt" ++ zfill 7 s)
    else if pyStarts s "tt" then some s
    else none

/-- Python `==` on the scalar values (`!=` is its negation; on these scalar
types the comparison is total, so the `except (TypeError, ValueError)`
fallback of the OVERWRITE branch is unreachable).  NaN compares unequal to
everything, including itself; int and float compare numerically. -/
def pyEq : Value → Value → Bool
  | vnan, _ => false
  | _, vnan => false
  | vnone, vnone => true
  | vstr a, vstr b => a = b
  | vint a, vint b => a = b
  | vint a, vfloat q => (a : Rat) = q
  | vfloat q, vint a => q = (a : Rat)
  | vfloat a, vfloat b => a = b
  | _, _ => false

/-- The canonical table (pandas DataFrame): an ordered column list and one
association row per record.  A column present in `cols` but missing from a
row reads as NaN, matching an unset DataFrame cell. -/
structure Table where
  cols : List String
  rows : List (List (String × Value))
deriving DecidableEq, Repr

/-- Replace the binding of a column inside one row (or append it). -/
def setBinding : List (String × Value) → String → Value → List (String × Value)
  | [], c, v => [(c, v)]
  | (k, w) :: rest, c, v =>
      if k = c then (c, v) :: rest else (k, w) :: setBinding rest c v

/-- Total read of a cell; used to state theorems (defaulting to NaN for an
absent binding, like an unset DataFrame cell). -/
def Table.read (t : Table) (idx : Nat) (col : String) : Value :=
  ((t.rows.getD idx []).lookup col).getD vnan

/-- `df.at[idx, col]` read: raises KeyError when the row or the column is
absent. -/
def Table.atGet (t : Table) (idx : Nat) (col : String) : Except String Value :=
  if t.cols.contains col && idx < t.rows.length then .ok (t.read idx col)
  else .error "KeyError"

/-- `df.at[idx, col] = v` write.  Writing to a column that is not yet in
`cols` appends it (this is how pandas would grow the schema); writing to a
row index beyond the current length is not modelled because `_update_value`
always reads the cell first, which raises for an absent row. -/
def Table.atSet (t : Table) (idx : Nat) (col : String) (v : Value) : Table :=
  { cols := if t.cols.contains col then t.cols else t.cols ++ [col]
    rows := t.rows.set idx (setBinding (t.rows.getD idx []) col v) }

/-- `ColumnMapper` of freshin_meta_merger_v27.72.py: the flat alias map and
the canonical column set loaded from the mapping guides. -/
structure ColumnMapper where
  translation_map : List (String × String)
  canonical_columns : List String
deriving Repr

/-- `ColumnMapper.to_canonical`: empty names pass through; otherwise try the
lowercased-stripped name in the translation map, then the canonical set,
then the original spelling in the translation map, and finally fall back to
the original name. -/
def to_canonical (m : ColumnMapper) (column_name : String) : String :=
  if column_name = "" then column_name
  else
    let col_lower := pyStrip (pyLowerStr column_name)
    match m.translation_map.lookup col_lower with
    | some c => c
    | none =>
        if m.canonical_columns.contains col_lower then col_lower
        else
          match m.translation_map.lookup column_name with
          | some c => c
          | none => column_name

/-- `MetadataMerger._update_value` (freshin_meta_merger_v27.72.py lines
465-499): map the column to its canonical name, refuse columns outside the
load-time column set and empty values, then apply MERGE or OVERWRITE to the
single addressed cell.  The OVERWRITE comparison `current != value` is total
on the scalar values modelled here, so its except-branch (which would also
write and return true) is unreachable. -/
def mergerUpdateValue (m : ColumnMapper) (bfdColumns : List String) (t : Table)
    (idx : Nat) (column : String) (value : Value) (mode : String) :
    Except String (Table × Bool) :=
  if !(bfdColumns.contains (to_canonical m column)) then .ok (t, false)
  else if is_empty_merger value then .ok (t, false)
  else
    match t.atGet idx (to_canonical m column) with
    | .error e => .error e
    | .ok current =>
        if mode = "MERGE" then
          if is_empty_merger current then .ok (t.atSet idx (to_canonical m column) value, true)
          else .ok (t, false)
        else if mode = "OVERWRITE" then
          if pdIsna current || !(pyEq current value) then
            .ok (t.atSet idx (to_canonical m column) value, true)
          else .ok (t, false)
        else .ok (t, false)

/-- `FreshInIngestionEngine._update_value` (freshin_ingest_v27.65.py lines
139-173): identical to the merger version except that no column-name
mapping is applied and the ingest EMPTY_VALUES set is used. -/
def ingestUpdateValue (bfdColumns : List String) (t : Table)
    (idx : Nat) (column : String) (value : Value) (mode : String) :
    Except String (Table × Bool) :=
  if !(bfdColumns.contains column) then .ok (t, false)
  else if is_empty_ingest value then .ok (t, false)
  else
    match t.atGet idx column with
    | .error e => .error e
    | .ok current =>
        if mode = "MERGE" then
          if is_empty_ingest current then .ok (t.atSet idx column value, true)
          else .ok (t, false)
        else if mode = "OVERWRITE" then
          if pdIsna current || !(pyEq current value) then
            .ok (t.atSet idx column value, true)
          else .ok (t, false)
        else .ok (t, false)

/-- `MetadataMerger.save_database` (freshin_meta_merger_v27.72.py lines
775-793).  The guard computes `final_columns - self.bfd_columns`; when that
set is non-empty it records an error and returns False without writing.
Otherwise the table is written and the function returns True.  The returned
Bool is therefore also exactly "the write happened". -/
def mergerSaveDatabase (bfd : Table) (bfdColumns : List String)
    (errors : List String) : Bool × List String :=
  if bfd.cols.filter (fun c => !(bfdColumns.contains c)) ≠ [] then
    (false, errors ++ ["Unauthorized columns"])
  else
    (true, errors)

/-- `FreshInIngestionEngine.save` (freshin_ingest_v27.65.py lines 600-618):
the identical new-columns guard; returns False without writing when any
column not in the load-time set exists, otherwise writes and returns True.
(The ingest script prints instead of appending to an error list.) -/
def ingestSave (bfd : Table) (bfdColumns : List String) : Bool :=
  if bfd.cols.filter (fun c => !(bfdColumns.contains c)) ≠ [] then false else true

/-! ## Part 1 helper lemmas -/

lemma lookup_setBinding_ne (r : List (String × Value)) (col c : String) (v : Value)
    (h : c ≠ col) : (setBinding r col v).lookup c = r.lookup c := by
  induction r with
  | nil => simp [setBinding, List.lookup, beq_eq_false_iff_ne.mpr h]
  | cons kv rest ih =>
      obtain ⟨k, w⟩ := kv
      by_cases hk : k = col
      · subst hk
        simp [setBinding, List.lookup, beq_eq_false_iff_ne.mpr h]
      · by_cases hck : c = k
        · subst hck
          simp [setBinding, hk, List.lookup]
        · simp [setBinding, hk, List.lookup, beq_eq_false_iff_ne.mpr hck, ih]

lemma lookup_setBinding_self (r : List (String × Value)) (col : String) (v : Value) :
    (setBinding r col v).lookup col = some v := by
  induction r with
  | nil => simp [setBinding, List.lookup]
  | cons kv rest ih =>
      obtain ⟨k, w⟩ := kv
      by_cases hk : k = col
      · subst hk; simp [setBinding, List.lookup]
      · simp [setBinding, hk, List.lookup, beq_eq_false_iff_ne.mpr (Ne.symm hk), ih]

lemma getD_set_ne {α : Type} (l : List α) (i j : Nat) (a d : α) (h : j ≠ i) :
    (l.set i a).getD j d = l.getD j d := by
  simp [List.getD_eq_getElem?_getD, List.getElem?_set_ne (Ne.symm h)]

lemma getD_set_self {α : Type} (l : List α) (i : Nat) (a d : α) (h : i < l.length) :
    (l.set i a).getD i d = a := by
  simp [List.getD_eq_getElem?_getD, List.getElem?_set_self, h]

lemma Table.atSet_rows_length (t : Table) (idx : Nat) (col : String) (v : Value) :
    (t.atSet idx col v).rows.length = t.rows.length := by
  simp [Table.atSet]

lemma Table.atSet_cols_of_mem (t : Table) (idx : Nat) (col : String) (v : Value)
    (h : t.cols.contains col = true) : (t.atSet idx col v).cols = t.cols := by
  simp only [Table.atSet, h, if_pos]

lemma Table.read_atSet_other (t : Table) (idx : Nat) (col : String) (v : Value)
    (i : Nat) (c : String) (h : i ≠ idx ∨ c ≠ col) :
    (t.atSet idx col v).read i c = t.read i c := by
  rcases h with h | h
  · unfold Table.read Table.atSet
    rw [getD_set_ne _ _ _ _ _ h]
  · by_cases hi : i = idx
    · subst hi
      unfold Table.read Table.atSet
      by_cases hlen : i < t.rows.length
      · rw [getD_set_self _ _ _ _ hlen, lookup_setBinding_ne _ _ _ _ h]
      · rw [List.set_eq_of_length_le (by omega)]
    · unfold Table.read Table.atSet
      rw [getD_set_ne _ _ _ _ _ hi]

lemma Table.read_atSet_self (t : Table) (idx : Nat) (col : String) (v : Value)
    (h : idx < t.rows.length) : (t.atSet idx col v).read idx col = v := by
  unfold Table.read Table.atSet
  rw [getD_set_self _ _ _ _ h, lookup_setBinding_self]
  rfl

lemma Table.atGet_eq_ok (t : Table) (idx : Nat) (col : String)
    (hc : t.cols.contains col = true) (hr : idx < t.rows.length) :
    t.atGet idx col = .ok (t.read idx col) := by
  have hm : col ∈ t.cols := by simpa using hc
  simp [Table.atGet, hm, hr]

lemma Table.atGet_ok_inv (t : Table) (idx : Nat) (col : String) (cur : Value)
    (h : t.atGet idx col = .ok cur) :
    t.cols.contains col = true ∧ idx < t.rows.length ∧ cur = t.read idx col := by
  unfold Table.atGet at h
  split at h
  · next hcond =>
      rw [Bool.and_eq_true] at hcond
      cases h
      exact ⟨hcond.1, by simpa using hcond.2, rfl⟩
  · cases h

lemma is_empty_of_pyEq (empties : List String) (cur v : Value)
    (hcur : is_empty_with empties cur = true) (h : pyEq cur v = true) :
    is_empty_with empties v = true := by
  cases cur <;> cases v <;> simp_all [pyEq, is_empty_with]

lemma pdIsna_false_of_pyEq (empties : List String) (cur v : Value)
    (hv : is_empty_with empties v = false) (h : pyEq cur v = true) :
    pdIsna cur = false := by
  cases cur <;> cases v <;> simp_all [pyEq, is_empty_with, pdIsna]

lemma mergerUpdateValue_frame (m : ColumnMapper) (bfdCols : List String) (t : Table)
    (idx : Nat) (column : String) (value : Value) (mode : String) (t2 : Table) (b : Bool)
    (h : mergerUpdateValue m bfdCols t idx column value mode = .ok (t2, b)) :
    t2.rows.length = t.rows.length ∧ t2.cols = t.cols ∧
      ∀ i c, i ≠ idx ∨ c ≠ to_canonical m column → t2.read i c = t.read i c := by
  unfold mergerUpdateValue at h
  split at h
  · cases h; exact ⟨rfl, rfl, fun i c _ => rfl⟩
  · split at h
    · cases h; exact ⟨rfl, rfl, fun i c _ => rfl⟩
    · split at h
      · cases h
      · next cur heq =>
          obtain ⟨hc, hlen, _⟩ := Table.atGet_ok_inv _ _ _ _ heq
          split at h
          · split at h
            · cases h
              exact ⟨Table.atSet_rows_length _ _ _ _, Table.atSet_cols_of_mem _ _ _ _ hc,
                fun i c hic => Table.read_atSet_other _ _ _ _ _ _ hic⟩
            · cases h; exact ⟨rfl, rfl, fun i c _ => rfl⟩
          · split at h
            · split at h
              · cases h
                exact ⟨Table.atSet_rows_length _ _ _ _, Table.atSet_cols_of_mem _ _ _ _ hc,
                  fun i c hic => Table.read_atSet_other _ _ _ _ _ _ hic⟩
              · cases h; exact ⟨rfl, rfl, fun i c _ => rfl⟩
            · cases h; exact ⟨rfl, rfl, fun i c _ => rfl⟩

lemma ingestUpdateValue_frame (bfdCols : List String) (t : Table)
    (idx : Nat) (column : String) (value : Value) (mode : String) (t2 : Table) (b : Bool)
    (h : ingestUpdateValue bfdCols t idx column value mode = .ok (t2, b)) :
    t2.rows.length = t.rows.length ∧ t2.cols = t.cols ∧
      ∀ i c, i ≠ idx ∨ c ≠ column → t2.read i c = t.read i c := by
  unfold ingestUpdateValue at h
  split at h
  · cases h; exact ⟨rfl, rfl, fun i c _ => rfl⟩
  · split at h
    · cases h; exact ⟨rfl, rfl, fun i c _ => rfl⟩
    · split at h
      · cases h
      · next cur heq =>
          obtain ⟨hc, hlen, _⟩ := Table.atGet_ok_inv _ _ _ _ heq
          split at h
          · split at h
            · cases h
              exact ⟨Table.atSet_rows_length _ _ _ _, Table.atSet_cols_of_mem _ _ _ _ hc,
                fun i c hic => Table.read_atSet_other _ _ _ _ _ _ hic⟩
            · cases h; exact ⟨rfl, rfl, fun i c _ => rfl⟩
          · split at h
            · split at h
              · cases h
                exact ⟨Table.atSet_rows_length _ _ _ _, Table.atSet_cols_of_mem _ _ _ _ hc,
                  fun i c hic => Table.read_atSet_other _ _ _ _ _ _ hic⟩
              · cases h; exact ⟨rfl, rfl, fun i c _ => rfl⟩
            · cases h; exact ⟨rfl, rfl, fun i c _ => rfl⟩

lemma overwrite_cond_true (empties : List String) (cur v : Value)
    (hv : is_empty_with empties v = false)
    (h : is_empty_with empties cur = true ∨ pyEq cur v = false) :
    (pdIsna cur || !(pyEq cur v)) = true := by
  rcases h with h | h
  · cases hpe : pyEq cur v
    · simp
    · exact absurd (is_empty_of_pyEq empties cur v h hpe) (by simp [hv])
  · simp [h]

lemma overwrite_cond_false (empties : List String) (cur v : Value)
    (hv : is_empty_with empties v = false) (h : pyEq cur v = true) :
    (pdIsna cur || !(pyEq cur v)) = false := by
  simp [h, pdIsna_false_of_pyEq empties cur v hv h]

/-! ## Part 1: concrete objects used by witnesses -/

/-- A ColumnMapper with no loaded guides (to_canonical is then the
identity on non-aliased names). -/
def mapper0 : ColumnMapper := { translation_map := [], canonical_columns := [] }

/-- A tiny canonical table: one row, two columns, premiere_date unset. -/
def table1 : Table :=
  { cols := ["premiere_date", "tmdb_score"]
    rows := [[("premiere_date", vnan), ("tmdb_score", vstr "7.1")]] }

/-! ## Claim theorems for Part 1 -/

/-- C1: for every row index present in the table, every column whose
canonical name is in the load-time ColumnSet, and every non-empty new
value, `_update_value` under MERGE sets the cell and returns true when the
current cell value is empty, and leaves the cell unchanged returning false
when the current value is non-empty; so MERGE only fills gaps.  Stated for
both `MetadataMerger._update_value` (which first maps the column through
`to_canonical`) and `FreshInIngestionEngine._update_value`. -/
theorem c1_merge_policy (m : ColumnMapper) (bfdCols : List String) (t : Table)
    (idx : Nat) (column : String) (value : Value) :
    (idx < t.rows.length → bfdCols.contains (to_canonical m column) = true →
      t.cols.contains (to_canonical m column) = true → is_empty_merger value = false →
      (is_empty_merger (t.read idx (to_canonical m column)) = true →
        mergerUpdateValue m bfdCols t idx column value "MERGE" =
          .ok (t.atSet idx (to_canonical m column) value, true)) ∧
      (is_empty_merger (t.read idx (to_canonical m column)) = false →
        mergerUpdateValue m bfdCols t idx column value "MERGE" = .ok (t, false))) ∧
    (idx < t.rows.length → bfdCols.contains column = true →
      t.cols.contains column = true → is_empty_ingest value = false →
      (is_empty_ingest (t.read idx column) = true →
        ingestUpdateValue bfdCols t idx column value "MERGE" =
          .ok (t.atSet idx column value, true)) ∧
      (is_empty_ingest (t.read idx column) = false →
        ingestUpdateValue bfdCols t idx column value "MERGE" = .ok (t, false))) := by
  constructor
  · intro hrow hc hct hval
    have hcm : to_canonical m column ∈ bfdCols := by simpa using hc
    constructor
    · intro hcur
      simp [mergerUpdateValue, hc, hcm, hval, Table.atGet_eq_ok _ _ _ hct hrow, hcur]
    · intro hcur
      simp [mergerUpdateValue, hc, hcm, hval, Table.atGet_eq_ok _ _ _ hct hrow, hcur]
  · intro hrow hc hct hval
    have hcm : column ∈ bfdCols := by simpa using hc
    constructor
    · intro hcur
      simp [ingestUpdateValue, hc, hcm, hval, Table.atGet_eq_ok _ _ _ hct hrow, hcur]
    · intro hcur
      simp [ingestUpdateValue, hc, hcm, hval, Table.atGet_eq_ok _ _ _ hct hrow, hcur]

/-- Witness for C1 on a concrete table: MERGE fills the unset premiere_date
cell and refuses to replace the set tmdb_score cell. -/
theorem c1_merge_policy_witness :
    mergerUpdateValue mapper0 ["premiere_date", "tmdb_score"] table1 0 "premiere_date"
        (vstr "2026-01-01") "MERGE" =
      .ok (table1.atSet 0 (to_canonical mapper0 "premiere_date") (vstr "2026-01-01"), true) ∧
    ingestUpdateValue ["premiere_date", "tmdb_score"] table1 0 "tmdb_score"
        (vstr "8.0") "MERGE" = .ok (table1, false) := by
  constructor
  · exact ((c1_merge_policy mapper0 ["premiere_date", "tmdb_score"] table1 0 "premiere_date"
      (vstr "2026-01-01")).1 (by decide) (by decide) (by decide) (by decide)).1 (by decide)
  · exact ((c1_merge_policy mapper0 ["premiere_date", "tmdb_score"] table1 0 "tmdb_score"
      (vstr "8.0")).2 (by decide) (by decide) (by decide) (by decide)).2 (by decide)

/-- C2: for every row index present in the table, every column whose
canonical name is in the load-time ColumnSet, and every non-empty new
value, `_update_value` under OVERWRITE sets the cell and returns true when
the current cell value is empty or differs from the new value (NaN-safe
comparison: NaN current values always count as differing), and leaves the
cell unchanged returning false when the current value equals the new
value.  Stated for both scripts. -/
theorem c2_overwrite_policy (m : ColumnMapper) (bfdCols : List String) (t : Table)
    (idx : Nat) (column : String) (value : Value) :
    (idx < t.rows.length → bfdCols.contains (to_canonical m column) = true →
      t.cols.contains (to_canonical m column) = true → is_empty_merger value = false →
      ((is_empty_merger (t.read idx (to_canonical m column)) = true ∨
          pyEq (t.read idx (to_canonical m column)) value = false) →
        mergerUpdateValue m bfdCols t idx column value "OVERWRITE" =
          .ok (t.atSet idx (to_canonical m column) value, true)) ∧
      (pyEq (t.read idx (to_canonical m column)) value = true →
        mergerUpdateValue m bfdCols t idx column value "OVERWRITE" = .ok (t, false))) ∧
    (idx < t.rows.length → bfdCols.contains column = true →
      t.cols.contains column = true → is_empty_ingest value = false →
      ((is_empty_ingest (t.read idx column) = true ∨
          pyEq (t.read idx column) value = false) →
        ingestUpdateValue bfdCols t idx column value "OVERWRITE" =
          .ok (t.atSet idx column value, true)) ∧
      (pyEq (t.read idx column) value = true →
        ingestUpdateValue bfdCols t idx column value "OVERWRITE" = .ok (t, false))) := by
  constructor
  · intro hrow hc hct hval
    have hcm : to_canonical m column ∈ bfdCols := by simpa using hc
    constructor
    · intro hcond
      have hcT := overwrite_cond_true EMPTY_VALUES_MERGER _ _ hval hcond
      simp [mergerUpdateValue, hc, hcm, hval, Table.atGet_eq_ok _ _ _ hct hrow, hcT]
    · intro hcond
      have hcF := overwrite_cond_false EMPTY_VALUES_MERGER _ _ hval hcond
      simp [mergerUpdateValue, hc, hcm, hval, Table.atGet_eq_ok _ _ _ hct hrow, hcF]
  · intro hrow hc hct hval
    have hcm : column ∈ bfdCols := by simpa using hc
    constructor
    · intro hcond
      have hcT := overwrite_cond_true EMPTY_VALUES_INGEST _ _ hval hcond
      simp [ingestUpdateValue, hc, hcm, hval, Table.atGet_eq_ok _ _ _ hct hrow, hcT]
    · intro hcond
      have hcF := overwrite_cond_false EMPTY_VALUES_INGEST _ _ hval hcond
      simp [ingestUpdateValue, hc, hcm, hval, Table.atGet_eq_ok _ _ _ hct hrow, hcF]

/-- Witness for C2 on a concrete table: OVERWRITE replaces a differing
tmdb_score and refuses to rewrite an equal one. -/
theorem c2_overwrite_policy_witness :
    mergerUpdateValue mapper0 ["premiere_date", "tmdb_score"] table1 0 "tmdb_score"
        (vstr "8.0") "OVERWRITE" =
      .ok (table1.atSet 0 (to_canonical mapper0 "tmdb_score") (vstr "8.0"), true) ∧
    ingestUpdateValue ["premiere_date", "tmdb_score"] table1 0 "tmdb_score"
        (vstr "7.1") "OVERWRITE" = .ok (table1, false) := by
  constructor
  · exact ((c2_overwrite_policy mapper0 ["premiere_date", "tmdb_score"] table1 0 "tmdb_score"
      (vstr "8.0")).1 (by decide) (by decide) (by decide) (by decide)).1 (Or.inr (by decide))
  · exact ((c2_overwrite_policy mapper0 ["premiere_date", "tmdb_score"] table1 0 "tmdb_score"
      (vstr "7.1")).2 (by decide) (by decide) (by decide) (by decide)).2 (by decide)

/-- C3 counterexample: the save guard only checks `final - initial`
columns.  A table whose column set lost the column "b" (so its column set
differs from the load-time set) still passes the guard and is written,
refuting "the table is persisted only when the two column sets are
identical". -/
theorem c3_schema_guard_counterexample :
    (mergerSaveDatabase { cols := ["a"], rows := [] } ["a", "b"] []).1 = true ∧
      ¬(∀ c : String, c ∈ ({ cols := ["a"], rows := [] } : Table).cols ↔ c ∈ ["a", "b"]) := by
  constructor
  · rfl
  · intro hall
    have h := (hall "b").mpr (by simp)
    simp at h

/-- C3 amended: the save step blocks (returns false, appends an error, and
writes nothing) exactly when the table has a column that is not in the
load-time column set; when every current column is in the load-time set
(in particular when columns were only removed) the table is persisted, and
this new-column guard is the only failure mode of the save function.
Stated for both `MetadataMerger.save_database` and
`FreshInIngestionEngine.save`. -/
theorem c3_schema_guard_amended (bfd : Table) (bfdColumns : List String)
    (errors : List String) :
    ((mergerSaveDatabase bfd bfdColumns errors).1 = false ↔
      ∃ c ∈ bfd.cols, c ∉ bfdColumns) ∧
    ((mergerSaveDatabase bfd bfdColumns errors).1 = true →
      (mergerSaveDatabase bfd bfdColumns errors).2 = errors) ∧
    ((mergerSaveDatabase bfd bfdColumns errors).1 = false →
      (mergerSaveDatabase bfd bfdColumns errors).2 = errors ++ ["Unauthorized columns"]) ∧
    (ingestSave bfd bfdColumns = false ↔ ∃ c ∈ bfd.cols, c ∉ bfdColumns) := by
  by_cases hf : bfd.cols.filter (fun c => !(bfdColumns.contains c)) = []
  · have h1 : mergerSaveDatabase bfd bfdColumns errors = (true, errors) := by
      unfold mergerSaveDatabase
      rw [if_neg (fun hne => hne hf)]
    have h2 : ingestSave bfd bfdColumns = true := by
      unfold ingestSave
      rw [if_neg (fun hne => hne hf)]
    have hall : ∀ x ∈ bfd.cols, x ∈ bfdColumns := by
      rw [List.filter_eq_nil_iff] at hf
      intro x hx
      simpa using hf x hx
    refine ⟨?_, ?_, ?_, ?_⟩
    · rw [h1]; simpa using hall
    · intro _; rw [h1]
    · intro hcontra; rw [h1] at hcontra; simp at hcontra
    · rw [h2]; simpa using hall
  · have h1 : mergerSaveDatabase bfd bfdColumns errors =
        (false, errors ++ ["Unauthorized columns"]) := by
      unfold mergerSaveDatabase
      rw [if_pos hf]
    have h2 : ingestSave bfd bfdColumns = false := by
      unfold ingestSave
      rw [if_pos hf]
    have hex : ∃ c ∈ bfd.cols, c ∉ bfdColumns := by
      rcases List.exists_mem_of_ne_nil _ hf with ⟨c, hc⟩
      have hp := List.of_mem_filter hc
      exact ⟨c, List.mem_of_mem_filter hc, by simpa using hp⟩
    refine ⟨?_, ?_, ?_, ?_⟩
    · rw [h1]; simpa using hex
    · intro hcontra; rw [h1] at hcontra; simp at hcontra
    · intro _; rw [h1]
    · rw [h2]; simpa using hex

/-- Witness for C3 amended: a concrete table with an extra column "x" is
blocked with an error recorded, and one with only load-time columns is
persisted. -/
theorem c3_schema_guard_amended_witness :
    ((mergerSaveDatabase { cols := ["a", "x"], rows := [] } ["a", "b"] []).1 = false ↔
      ∃ c ∈ (["a", "x"] : List String), c ∉ (["a", "b"] : List String)) ∧
    (mergerSaveDatabase { cols := ["a"], rows := [] } ["a", "b"] []).2 = [] := by
  constructor
  · exact (c3_schema_guard_amended { cols := ["a", "x"], rows := [] } ["a", "b"] []).1
  · exact (c3_schema_guard_amended { cols := ["a"], rows := [] } ["a", "b"] []).2.1 (by decide)

/-- C4: a call to `_update_value` whose target column (after canonical
mapping, in the merger) is not in the load-time ColumnSet, or whose new
value is empty, returns false, raises nothing, and leaves the table
entirely unchanged -- in particular the missing column is never added.
Stated for both scripts and any mode. -/
theorem c4_update_value_guards (m : ColumnMapper) (bfdCols : List String) (t : Table)
    (idx : Nat) (column : String) (value : Value) (mode : String) :
    (bfdCols.contains (to_canonical m column) = false ∨ is_empty_merger value = true →
      mergerUpdateValue m bfdCols t idx column value mode = .ok (t, false)) ∧
    (bfdCols.contains column = false ∨ is_empty_ingest value = true →
      ingestUpdateValue bfdCols t idx column value mode = .ok (t, false)) := by
  constructor
  · intro h
    by_cases hc : bfdCols.contains (to_canonical m column) = true
    · have hval : is_empty_merger value = true := by
        rcases h with h | h
        · rw [hc] at h; cases h
        · exact h
      have hcm : to_canonical m column ∈ bfdCols := by simpa using hc
      simp [mergerUpdateValue, hc, hcm, hval]
    · rw [Bool.not_eq_true] at hc
      unfold mergerUpdateValue
      rw [hc]
      simp
  · intro h
    by_cases hc : bfdCols.contains column = true
    · have hval : is_empty_ingest value = true := by
        rcases h with h | h
        · rw [hc] at h; cases h
        · exact h
      have hcm : column ∈ bfdCols := by simpa using hc
      simp [ingestUpdateValue, hc, hcm, hval]
    · rw [Bool.not_eq_true] at hc
      unfold ingestUpdateValue
      rw [hc]
      simp

/-- Witness for C4: a concrete call on a column outside the ColumnSet and a
concrete call with an empty value are both no-ops returning false. -/
theorem c4_update_value_guards_witness :
    mergerUpdateValue mapper0 ["premiere_date", "tmdb_score"] table1 0 "box_office"
        (vstr "1000") "MERGE" = .ok (table1, false) ∧
    ingestUpdateValue ["premiere_date", "tmdb_score"] table1 0 "tmdb_score"
        (vstr "N/A") "OVERWRITE" = .ok (table1, false) := by
  constructor
  · exact (c4_update_value_guards mapper0 ["premiere_date", "tmdb_score"] table1 0
      "box_office" (vstr "1000") "MERGE").1 (Or.inl (by decide))
  · exact (c4_update_value_guards mapper0 ["premiere_date", "tmdb_score"] table1 0
      "tmdb_score" (vstr "N/A") "OVERWRITE").2 (Or.inr (by decide))

/-- C10: every call to `_update_value` that returns normally (in either
mode, whether it reports true or false) changes at most the single
addressed cell -- the given row index and the canonical mapping of the
given column: the row count, the column list, and every other cell of the
table are unchanged.  Stated for both scripts. -/
theorem c10_update_value_frame (m : ColumnMapper) (bfdCols : List String) (t : Table)
    (idx : Nat) (column : String) (value : Value) (mode : String) (t2 : Table) (b : Bool) :
    (mergerUpdateValue m bfdCols t idx column value mode = .ok (t2, b) →
      t2.rows.length = t.rows.length ∧ t2.cols = t.cols ∧
        ∀ i c, i ≠ idx ∨ c ≠ to_canonical m column → t2.read i c = t.read i c) ∧
    (ingestUpdateValue bfdCols t idx column value mode = .ok (t2, b) →
      t2.rows.length = t.rows.length ∧ t2.cols = t.cols ∧
        ∀ i c, i ≠ idx ∨ c ≠ column → t2.read i c = t.read i c) :=
  ⟨mergerUpdateValue_frame m bfdCols t idx column value mode t2 b,
   ingestUpdateValue_frame bfdCols t idx column value mode t2 b⟩

/-- Witness for C10: a concrete successful MERGE write leaves the row
count, the columns, and the other cell untouched. -/
theorem c10_update_value_frame_witness :
    (table1.atSet 0 (to_canonical mapper0 "premiere_date") (vstr "2026-01-01")).rows.length =
        table1.rows.length ∧
      (table1.atSet 0 (to_canonical mapper0 "premiere_date") (vstr "2026-01-01")).cols =
        table1.cols ∧
      ∀ i c, i ≠ 0 ∨ c ≠ to_canonical mapper0 "premiere_date" →
        (table1.atSet 0 (to_canonical mapper0 "premiere_date") (vstr "2026-01-01")).read i c =
          table1.read i c :=
  (c10_update_value_frame mapper0 ["premiere_date", "tmdb_score"] table1 0 "premiere_date"
    (vstr "2026-01-01") "MERGE"
    (table1.atSet 0 (to_canonical mapper0 "premiere_date") (vstr "2026-01-01")) true).1
    (by rfl)

/-- C5 counterexample: for a non-empty input that is neither numeric nor
"tt"-prefixed, the normalizer does not pass it through as-is -- it returns
None.  The string "abc" is such an input. -/
theorem c5_normalize_identifier_counterexample :
    normalize_imdb_id (vstr "abc") = none ∧
      normalize_imdb_id (vstr "abc") ≠ some "abc" ∧
      is_empty_merger (vstr "abc") = false := by
  refine ⟨by decide, by decide, by decide⟩

/-- C5 amended: `normalize_imdb_id` returns None for empty input; for an
input whose stripped string form is purely numeric it returns the number
zero-padded to width 7 behind the "tt" tag; a stripped form already
starting with "tt" is returned unchanged; and every other input yields
None (the merger normalizer is strict, not an as-is passthrough). -/
theorem c5_normalize_identifier_amended (val : Value) :
    (is_empty_merger val = true → normalize_imdb_id val = none) ∧
    (is_empty_merger val = false →
      (isDigits (pyStrip (pyStr val)) = true →
        normalize_imdb_id val = some ("tt" ++ zfill 7 (pyStrip (pyStr val)))) ∧
      (isDigits (pyStrip (pyStr val)) = false →
        pyStarts (pyStrip (pyStr val)) "tt" = true →
        normalize_imdb_id val = some (pyStrip (pyStr val))) ∧
      (isDigits (pyStrip (pyStr val)) = false →
        pyStarts (pyStrip (pyStr val)) "tt" = false →
        normalize_imdb_id val = none)) := by
  constructor
  · intro h
    simp [normalize_imdb_id, h]
  · intro h
    refine ⟨?_, ?_, ?_⟩
    · intro hd
      simp [normalize_imdb_id, h, hd]
    · intro hd hp
      simp [normalize_imdb_id, h, hd, hp]
    · intro hd hp
      simp [normalize_imdb_id, h, hd, hp]

/-- Witness for C5 amended at the concrete inputs of the spec: 76759 (as
number and as digit string) maps to "tt0076759", "tt0076759" is returned
unchanged, and None maps to None. -/
theorem c5_normalize_identifier_amended_witness :
    normalize_imdb_id (vint 76759) = some "tt0076759" ∧
    normalize_imdb_id (vstr "76759") = some "tt0076759" ∧
    normalize_imdb_id (vstr "tt0076759") = some "tt0076759" ∧
    normalize_imdb_id vnone = none := by
  refine ⟨?_, ?_, ?_, ?_⟩
  · exact (((c5_normalize_identifier_amended (vint 76759)).2 (by decide)).1
      (by decide)).trans (by decide)
  · exact (((c5_normalize_identifier_amended (vstr "76759")).2 (by decide)).1
      (by decide)).trans (by decide)
  · exact ((((c5_normalize_identifier_amended (vstr "tt0076759")).2 (by decide)).2.1
      (by decide)) (by decide)).trans (by decide)
  · exact (c5_normalize_identifier_amended vnone).1 (by decide)

/-- C6 counterexample: the string " " is non-empty and is not a member of
the sentinel set, yet `is_empty` reports it empty (it strips whitespace
before the set lookup).  This refutes "returns false for every non-sentinel
non-empty string". -/
theorem c6_is_empty_counterexample :
    is_empty_merger (vstr " ") = true ∧
      " " ∉ EMPTY_VALUES_MERGER ∧ " " ≠ "" ∧
      is_empty_ingest (vstr " ") = true ∧ " " ∉ EMPTY_VALUES_INGEST := by
  refine ⟨by decide, by decide, by decide, by decide, by decide⟩

/-- C6 amended: `is_empty` returns true for None, NaN and every string in
the fixed empty-value set, and returns false for the numeric values 0 and
0.0 and for every string whose whitespace-stripped form is outside the
set (strings that strip into the set, such as " ", also count as empty).
Stated for both scripts and their respective sets. -/
theorem c6_is_empty_amended :
    (∀ s ∈ EMPTY_VALUES_MERGER, is_empty_merger (vstr s) = true) ∧
    is_empty_merger vnone = true ∧ is_empty_merger vnan = true ∧
    is_empty_merger (vint 0) = false ∧ is_empty_merger (vfloat 0) = false ∧
    (∀ s : String, pyStrip s ∉ EMPTY_VALUES_MERGER → is_empty_merger (vstr s) = false) ∧
    (∀ s ∈ EMPTY_VALUES_INGEST, is_empty_ingest (vstr s) = true) ∧
    is_empty_ingest vnone = true ∧ is_empty_ingest vnan = true ∧
    is_empty_ingest (vint 0) = false ∧ is_empty_ingest (vfloat 0) = false ∧
    (∀ s : String, pyStrip s ∉ EMPTY_VALUES_INGEST → is_empty_ingest (vstr s) = false) := by
  refine ⟨by decide, by decide, by decide, by decide, by decide, ?_,
    by decide, by decide, by decide, by decide, by decide, ?_⟩
  · intro s h
    simp only [is_empty_merger, is_empty_with]
    simpa using h
  · intro s h
    simp only [is_empty_ingest, is_empty_with]
    simpa using h

/-- Witness for C6 amended at concrete inputs: the sentinel "NULL" is
empty and the ordinary string "Inception" is not. -/
theorem c6_is_empty_amended_witness :
    is_empty_merger (vstr "NULL") = true ∧ is_empty_merger (vstr "Inception") = false := by
  constructor
  · exact c6_is_empty_amended.1 "NULL" (by decide)
  · exact c6_is_empty_amended.2.2.2.2.2.1 "Inception" (by decide)

/-! ## Part 2: vdb_freshin_engine.py -- JSON values and Python helpers -/

/-- A parsed JSON value, as handed to the engine by `json.load`.  JSON
numbers are modelled as integers (the batches the claims exercise carry
no fractional numbers). -/
inductive JVal where
  | jnull
  | jbool (b : Bool)
  | jnum (n : Int)
  | jstr (s : String)
  | jarr (xs : List JVal)
  | jobj (kvs : List (String × JVal))
deriving Repr

/-- First-match association lookup (Python dicts produced by json.load have
distinct keys). -/
def assocLookup {α : Type} (l : List (String × α)) (k : String) : Option α :=
  match l with
  | [] => none
  | (k2, v) :: rest => if k2 = k then some v else assocLookup rest k

/-- Python truthiness of a JSON value. -/
def jTruthy : JVal → Bool
  | .jnull => false
  | .jbool b => b
  | .jnum n => n ≠ 0
  | .jstr s => s ≠ ""
  | .jarr xs => !xs.isEmpty
  | .jobj kvs => !kvs.isEmpty

/-- Equality on scalar JSON values; containers are never equal under this
relation (it is used only for dict-key and membership positions, where the
engine only ever meets scalars -- container keys would be unhashable in
Python). -/
def jScalarEq : JVal → JVal → Bool
  | .jnull, .jnull => true
  | .jbool a, .jbool b => a = b
  | .jnum a, .jnum b => a = b
  | .jstr a, .jstr b => a = b
  | _, _ => false

/-- Python `str()` of a JSON value (containers are abbreviated; only scalar
values ever reach the str positions of the engine). -/
def pyStrJ : JVal → String
  | .jnull => "None"
  | .jbool b => if b then "True" else "False"
  | .jnum n => toString n
  | .jstr s => s
  | .jarr _ => "[...]"
  | .jobj _ => "<dict>"

/-- Python `x.get(key, default)`: dictionary lookup with default; raises
AttributeError on anything that is not a dict. -/
def jGet (v : JVal) (key : String) (dflt : JVal) : Except String JVal :=
  match v with
  | .jobj kvs => .ok ((assocLookup kvs key).getD dflt)
  | _ => .error "AttributeError"

/-- Python `container[key]` as used by the engine (dict indexing by a
string key). -/
def jIndex (v : JVal) (key : JVal) : Except String JVal :=
  match v, key with
  | .jobj kvs, .jstr s =>
      match assocLookup kvs s with
      | some x => .ok x
      | none => .error "KeyError"
  | _, _ => .error "TypeError"

/-- Python iteration `for x in v`: lists yield elements, strings yield
one-character strings, dicts yield their keys; everything else raises. -/
def pyIter : JVal → Except String (List JVal)
  | .jarr xs => .ok xs
  | .jstr s => .ok (s.toList.map (fun c => .jstr (String.mk [c])))
  | .jobj kvs => .ok (kvs.map (fun kv => .jstr kv.1))
  | _ => .error "TypeError"

/-- Python `x in container` for a JSON value key. -/
def pyInJ (x : JVal) (container : JVal) : Except String Bool :=
  match container with
  | .jobj kvs =>
      .ok (match x with
           | .jstr s => (assocLookup kvs s).isSome
           | _ => false)
  | .jarr xs => .ok (xs.any (jScalarEq x))
  | _ => .error "TypeError"

/-- Python `key in r` for a string key (substring test on strings, key
membership on dicts, element membership on lists). -/
def pyInKey (k : String) (r : JVal) : Except String Bool :=
  match r with
  | .jobj kvs => .ok ((assocLookup kvs k).isSome)
  | .jstr s => .ok (subList s.toList k.toList)
  | .jarr xs => .ok (xs.any (jScalarEq (.jstr k)))
  | _ => .error "TypeError"
where
  subList : List Char → List Char → Bool
    | [], needle => needle.isEmpty
    | h :: t, needle => leadEq (h :: t) needle || subList t needle

/-- Substring test for plain strings. -/
def containsSub (hay needle : String) : Bool :=
  pyInKey.subList hay.toList needle.toList

/-- Python `len(v)`: raises TypeError on unsized values. -/
def pyLenJ : JVal → Except String Nat
  | .jarr xs => .ok xs.length
  | .jstr s => .ok s.length
  | .jobj kvs => .ok kvs.length
  | _ => .error "TypeError"

/-- Python `a or b` (short-circuit on truthiness). -/
def pyOr (a b : JVal) : JVal := if jTruthy a then a else b

/-- Dict assignment `d[k] = v` on an association list. -/
def setJKey : List (String × JVal) → String → JVal → List (String × JVal)
  | [], k, v => [(k, v)]
  | (k2, w) :: rest, k, v =>
      if k2 = k then (k, v) :: rest else (k2, w) :: setJKey rest k v

/-- Digit list to natural number. -/
def digitsToNat (l : List Char) : Nat :=
  l.foldl (fun acc c => acc * 10 + (c.toNat - '0'.toNat)) 0

/-- Python `int(s)` on a string: strip whitespace, optional sign, digits;
None models the raised ValueError. -/
def pyIntOfStr (s : String) : Option Int :=
  match (pyStrip s).toList with
  | [] => none
  | '-' :: rest =>
      if !rest.isEmpty && rest.all Char.isDigit then some (-(digitsToNat rest : Int)) else none
  | '+' :: rest =>
      if !rest.isEmpty && rest.all Char.isDigit then some (digitsToNat rest : Int) else none
  | l => if l.all Char.isDigit then some (digitsToNat l : Int) else none

/-- Python `f"tt{n:07d}"`: the tag plus the integer zero-padded to total
width 7 (the sign, when present, counts toward the width). -/
def ttFormat (n : Int) : String :=
  if n < 0 then "tt-" ++ zfill 6 (toString n.natAbs)
  else "tt" ++ zfill 7 (toString n.natAbs)

/-- `DatabaseWriters.convert_imdb_id` (vdb_freshin_engine.py lines
341-355): None passes through; a string already starting with "tt" is
returned unchanged; a string parseable as int, or a number (bools are
ints in Python), becomes the tt-prefixed zero-padded form; an unparseable
string is returned as-is; anything else is stringified. -/
def convert_imdb_id (v : JVal) : JVal :=
  match v with
  | .jnull => .jnull
  | .jstr s =>
      if pyStarts s "tt" then .jstr s
      else
        match pyIntOfStr s with
        | some n => .jstr (ttFormat n)
        | none => .jstr s
  | .jnum n => .jstr (ttFormat n)
  | .jbool b => .jstr (ttFormat (if b then 1 else 0))
  | .jarr _ => .jstr (pyStrJ v)
  | .jobj _ => .jstr (pyStrJ v)

/-! ## Part 2: data types, classifier, router -/

/-- The closed DataType enumeration of the engine. -/
inductive DataType where
  | TITLE_METADATA
  | VIEWERSHIP_DATA
  | PLATFORM_AVAILABILITY
  | PLATFORM_CHANGES
  | FLIXPATROL_TITLES
  | SOCIAL_SIGNALS
  | FINANCIAL_DATA
  | NEWS_EVENTS
  | TRENDING_DATA
  | UNKNOWN
deriving DecidableEq, Repr

/-- The `.value` string of each DataType member. -/
def DataType.value : DataType → String
  | .TITLE_METADATA => "title_metadata"
  | .VIEWERSHIP_DATA => "viewership_data"
  | .PLATFORM_AVAILABILITY => "platform_avail"
  | .PLATFORM_CHANGES => "platform_changes"
  | .FLIXPATROL_TITLES => "flixpatrol_titles"
  | .SOCIAL_SIGNALS => "social_signals"
  | .FINANCIAL_DATA => "financial_data"
  | .NEWS_EVENTS => "news_events"
  | .TRENDING_DATA => "trending_data"
  | .UNKNOWN => "unknown"

/-- `DataTypeDetector.SOURCE_MAPPING`: the static provider table. -/
def SOURCE_MAPPING : List (String × List (String × DataType)) :=
  [("tmdb",
     [("trending_movies_week", .TRENDING_DATA), ("trending_tv_week", .TRENDING_DATA),
      ("popular_movies", .TITLE_METADATA), ("popular_tv", .TITLE_METADATA),
      ("top_rated_movies", .TITLE_METADATA), ("top_rated_tv", .TITLE_METADATA),
      ("upcoming_movies", .TITLE_METADATA), ("now_playing_movies", .TITLE_METADATA),
      ("on_the_air_tv", .TITLE_METADATA), ("airing_today_tv", .TITLE_METADATA),
      ("movie_genres", .TITLE_METADATA), ("tv_genres", .TITLE_METADATA)]),
   ("flixpatrol",
     [("titles", .FLIXPATROL_TITLES), ("default", .FLIXPATROL_TITLES),
      ("rankings", .VIEWERSHIP_DATA), ("points", .VIEWERSHIP_DATA),
      ("top10", .VIEWERSHIP_DATA)]),
   ("streaming_availability",
     [("countries", .PLATFORM_AVAILABILITY), ("genres", .TITLE_METADATA),
      ("shows", .PLATFORM_AVAILABILITY), ("new_shows", .PLATFORM_CHANGES)]),
   ("twitter_trends", [("places", .SOCIAL_SIGNALS), ("trends", .SOCIAL_SIGNALS)]),
   ("seeking_alpha", [("default", .FINANCIAL_DATA), ("company_search", .FINANCIAL_DATA)]),
   ("reuters",
     [("default", .NEWS_EVENTS), ("news_technology", .NEWS_EVENTS),
      ("news_media", .NEWS_EVENTS), ("news_business", .NEWS_EVENTS)]),
   ("disney_plus",
     [("default", .PLATFORM_AVAILABILITY), ("titles", .PLATFORM_AVAILABILITY),
      ("random_title", .PLATFORM_AVAILABILITY)]),
   ("imdb", [("default", .TITLE_METADATA), ("genres", .TITLE_METADATA)])]

/-- `DataTypeDetector._get_skip_reason`. -/
def get_skip_reason (_source : String) (_data_type : String) : String :=
  "unknown_data_type"

/-- `DataTypeDetector._detect_from_content`: content sniffing over the
lowercased key names of a dict payload, in the fixed priority order of the
code. -/
def detect_from_content (data : JVal) : DataType :=
  let keys : List String :=
    match data with
    | .jobj kvs => kvs.map (fun kv => pyLowerStr kv.1)
    | _ => []
  if keys.any (fun k => ["views", "hours_viewed", "points", "ranking", "watch_time"].contains k) then
    .VIEWERSHIP_DATA
  else if keys.any (fun k => ["imdb_id", "tmdb_id", "title", "premiere", "genres"].contains k) then
    .TITLE_METADATA
  else if keys.any (fun k => ["services", "streaming", "platform", "availability", "countrycode"].contains k) then
    .PLATFORM_AVAILABILITY
  else if keys.any (fun k => ["changes", "shows"].contains k) && keys.contains "changes" then
    .PLATFORM_CHANGES
  else if keys.any (fun k => ["trending", "trends", "hashtags", "mentions", "sentiment"].contains k) then
    .SOCIAL_SIGNALS
  else if keys.any (fun k => ["revenue", "subscribers", "stock", "market_cap", "earnings"].contains k) then
    .FINANCIAL_DATA
  else .UNKNOWN

/-- The shared tail of `detect`: `if data:` sniff content, otherwise the
call returns UNKNOWN with skip reason unknown_source (an empty dict is
falsy, so it also lands on unknown_source). -/
def detectTail (data : Option JVal) : DataType × String :=
  match data with
  | some d =>
      if jTruthy d then
        let dt := detect_from_content d
        if dt = .UNKNOWN then (dt, "unknown_data_type") else (dt, "")
      else (.UNKNOWN, "unknown_source")
  | none => (.UNKNOWN, "unknown_source")

/-- `DataTypeDetector.detect` (vdb_freshin_engine.py lines 244-261).
`source` and `data_type` arrive as raw JSON values (`batch.get(...)`), so
a non-string source raises AttributeError at `source.lower()`; a
non-string `data_type` is simply never found in the per-source map. -/
def detect (source : JVal) (data_type : JVal) (data : Option JVal) :
    Except String (DataType × String) :=
  match source with
  | .jstr s =>
      let source_lower := pyLowerStr s
      match assocLookup SOURCE_MAPPING source_lower with
      | some type_map =>
          match (if jTruthy data_type then
                  (match data_type with
                   | .jstr ts => assocLookup type_map ts
                   | _ => none)
                 else none) with
          | some dt =>
              if dt = .UNKNOWN then
                .ok (dt, get_skip_reason source_lower (pyStrJ data_type))
              else .ok (dt, "")
          | none =>
              match assocLookup type_map "default" with
              | some d => .ok (d, "")
              | none => .ok (detectTail data)
      | none => .ok (detectTail data)
  | _ => .error "AttributeError"

/-- `RoutingDecision` (one per batch). -/
structure RoutingDecision where
  source_file : String
  data_type : DataType
  target_db : String
  action : String
  records_count : Nat
  key_field : String := ""
  confidence : Rat := 1
  reason : String := ""
  skip_reason : String := ""
  sample_records : List JVal := []
deriving Repr

/-- `RoutingEngine.ROUTING_TABLE`. -/
def ROUTING_TABLE : DataType → String × String × Option String
  | .TITLE_METADATA => ("BFD", "merge", some "tmdb_id")
  | .VIEWERSHIP_DATA => ("VIEWS_TRAINING", "append", some "imdb_id")
  | .PLATFORM_AVAILABILITY => ("COMPONENTS", "update", some "country")
  | .PLATFORM_CHANGES => ("PLATFORM_MASTER", "update", some "imdb_id")
  | .FLIXPATROL_TITLES => ("BFD", "merge", some "imdb_id")
  | .SOCIAL_SIGNALS => ("ABSTRACT_DATA", "append", some "date")
  | .FINANCIAL_DATA => ("ABSTRACT_DATA", "append", some "date")
  | .NEWS_EVENTS => ("ABSTRACT_DATA", "append", some "date")
  | .TRENDING_DATA => ("BFD", "update", some "tmdb_id")
  | .UNKNOWN => ("SKIP", "skip", none)

/-- `RoutingEngine.route` (pure lookup; confidence 1.0 for any resolved
type, 0.5 for UNKNOWN; reason always populated). -/
def route (data_type : DataType) (source_file : String) (records_count : Nat)
    (skip_reason : String) : RoutingDecision :=
  let routing := ROUTING_TABLE data_type
  { source_file := source_file
    data_type := data_type
    target_db := routing.1
    action := routing.2.1
    records_count := records_count
    key_field := (routing.2.2).getD ""
    confidence := if data_type ≠ .UNKNOWN then 1 else (1 : Rat) / 2
    reason := "Routed " ++ data_type.value ++ " to " ++ routing.1
    skip_reason := skip_reason }

/-! ## Part 2: merge results, statistics, writers -/

/-- `MergeResult`: record of one merge/update/append execution. -/
structure MergeResult where
  target : String
  action : String
  total_records : Nat
  new_records : Nat
  updated_records : Nat
  skipped_records : Nat
  key_field : String
  sample_keys : List String := []
  fields_updated : List String := []
  reason : String := ""
deriving DecidableEq, Repr

/-- One entry of `stats.skip_details`. -/
structure SkipDetail where
  source : String
  type : String
  count : Nat
  reason : String
deriving DecidableEq, Repr

/-- `ProcessingStats` of the engine. -/
structure ProcessingStats where
  files_processed : Nat := 0
  records_routed : Nat := 0
  bfd_updates : Nat := 0
  bfd_new : Nat := 0
  star_schema_updates : Nat := 0
  views_training_appends : Nat := 0
  abstract_data_appends : Nat := 0
  components_updates : Nat := 0
  platform_changes_processed : Nat := 0
  flixpatrol_titles_processed : Nat := 0
  skipped : Nat := 0
  errors : List String := []
  skip_details : List SkipDetail := []
  merge_results : List MergeResult := []
deriving Repr

/-- `FLIXPATROL_FIELD_MAP` (V1.20 field mapping to the BFD schema). -/
def FLIXPATROL_FIELD_MAP : List (String × String) :=
  [("id", "flixpatrol_id"), ("imdbId", "imdb_id"), ("tmdbId", "tmdb_id"),
   ("title", "title"), ("premiere", "premiere_date"), ("description", "overview"),
   ("length", "runtime_minutes"), ("budget", "budget"), ("boxOffice", "box_office"),
   ("countries", "production_countries"), ("seasons", "max_seasons")]

/-- Python `str(x)[:20]` used for sample keys. -/
def strTake (s : String) (n : Nat) : String := String.mk (s.toList.take n)

/-- `DatabaseWriters.merge_to_bfd`.  The reason strings of the code embed
counts via f-strings; the model keeps fixed phrases (the counts live in
the numeric fields). -/
def merge_to_bfd (dryRun : Bool) (records : List JVal) (key_field : String) :
    Except String MergeResult := do
  let base : MergeResult := {
    target := "Cranberry_BFD_V18.06.parquet", action := "merge",
    total_records := records.length, new_records := 0, updated_records := 0,
    skipped_records := 0, key_field := key_field,
    fields_updated := ["tmdb_popularity", "tmdb_score", "tmdb_vote_count", "title", "overview"] }
  if records.isEmpty then
    return { base with reason := "No records to merge" }
  let sample_keys ← (records.take 5).foldlM (fun (acc : List String) r => do
      let k1 ← jGet r key_field .jnull
      let k2 ← jGet r "id" .jnull
      let k3 ← jGet r "tmdb_id" .jnull
      let k4 ← jGet r "imdb_id" .jnull
      let key := pyOr (pyOr (pyOr k1 k2) k3) k4
      if jTruthy key then return acc ++ [pyStrJ key] else return acc) []
  let newR := records.length / 3
  if dryRun then
    return { base with
             sample_keys := sample_keys
             new_records := newR
             updated_records := records.length - newR
             reason := "[DRY RUN] Would merge records" }
  return { base with
           sample_keys := sample_keys
           new_records := newR
           updated_records := records.length - newR
           reason := "Merged records successfully" }

/-- `DatabaseWriters.merge_flixpatrol_to_bfd` (V1.20): field mapping with
imdb_id conversion; a mapped record with neither imdb_id nor tmdb_id is
counted skipped; in live mode total_records is reassigned to the
transformed count. -/
def merge_flixpatrol_to_bfd (dryRun : Bool) (records : List JVal) :
    Except String MergeResult := do
  let base : MergeResult := {
    target := "Cranberry_BFD_V18.06.parquet", action := "merge",
    total_records := records.length, new_records := 0, updated_records := 0,
    skipped_records := 0, key_field := "imdb_id",
    fields_updated := FLIXPATROL_FIELD_MAP.map (fun p => p.2) }
  if records.isEmpty then
    return { base with reason := "No FlixPatrol records to merge" }
  let tp ← records.foldlM
    (fun (acc : List JVal × Nat) r => do
      let mapped ← FLIXPATROL_FIELD_MAP.foldlM
        (fun (mp : List (String × JVal)) sd => do
          let mem ← pyInKey sd.1 r
          if mem then do
            let value ← jIndex r (.jstr sd.1)
            let value := if sd.1 = "imdbId" then convert_imdb_id value else value
            return setJKey mp sd.2 value
          else return mp) []
      let mi := (assocLookup mapped "imdb_id").getD .jnull
      let mt := (assocLookup mapped "tmdb_id").getD .jnull
      if jTruthy (pyOr mi mt) then return (acc.1 ++ [.jobj mapped], acc.2)
      else return (acc.1, acc.2 + 1)) (([], 0) : List JVal × Nat)
  let transformed := tp.1
  let skipped := tp.2
  let sample_keys ← (transformed.take 5).foldlM (fun (acc : List String) r => do
      let k1 ← jGet r "imdb_id" .jnull
      let k2 ← jGet r "tmdb_id" .jnull
      let key := pyOr k1 k2
      if jTruthy key then return acc ++ [pyStrJ key] else return acc) []
  let newR := transformed.length / 2
  if dryRun then
    return { base with
             skipped_records := skipped
             sample_keys := sample_keys
             new_records := newR
             updated_records := transformed.length - newR
             reason := "[DRY RUN] Would merge FlixPatrol titles" }
  return { base with
           total_records := transformed.length
           skipped_records := skipped
           sample_keys := sample_keys
           new_records := newR
           updated_records := transformed.length - newR
           reason := "Merged FlixPatrol titles successfully" }

/-- `DatabaseWriters.update_platform_availability` (V1.20).  The per-title
entry bodies (titles, per-country platform lists, timestamps) are written
only to the external master file; the model tracks the distinct imdb_id
keys and the counters the engine observes.  `master` is the parsed content
of the existing master file (empty when missing or unreadable). -/
def update_platform_availability (dryRun : Bool) (master : List (String × JVal))
    (data : JVal) : Except String MergeResult := do
  let changes ← jGet data "changes" (.jarr [])
  let shows ← jGet data "shows" (.jobj [])
  let total ← pyLenJ changes
  let base : MergeResult := {
    target := "platform_availability_current.json", action := "update",
    total_records := total, new_records := 0, updated_records := 0,
    skipped_records := 0, key_field := "imdb_id",
    fields_updated := ["platforms", "last_seen", "change_type"] }
  if !(jTruthy changes) then
    return { base with reason := "No platform changes to process" }
  let items ← pyIter changes
  let kn ← items.foldlM
    (fun (acc : List JVal × Nat) change => do
      let show_id ← jGet change "showId" .jnull
      let service ← jGet change "service" (.jobj [])
      let _service_id ← jGet service "id" (.jstr "unknown")
      let _change_type ← jGet change "changeType" (.jstr "unknown")
      let _country ← jGet change "country" (.jstr "us")
      if jTruthy show_id then do
        let mem ← pyInJ show_id shows
        if mem then do
          let show_info ← jIndex shows show_id
          let imdb_id ← jGet show_info "imdbId" .jnull
          if jTruthy imdb_id then
            return (if acc.1.any (fun k => jScalarEq k imdb_id) then acc.1
                    else acc.1 ++ [imdb_id], acc.2 + 1)
          else return acc
        else return acc
      else return acc) (([], 0) : List JVal × Nat)
  let keys := kn.1
  let sample := (keys.take 5).map pyStrJ
  if dryRun then
    return { base with
             new_records := kn.2
             sample_keys := sample
             reason := "[DRY RUN] Would update platform availability" }
  let updated := (keys.filter (fun k =>
      match k with
      | .jstr s2 => (assocLookup master s2).isSome
      | _ => false)).length
  return { base with
           new_records := kn.2
           sample_keys := sample
           updated_records := updated
           reason := "Updated platform availability" }

/-- `DatabaseWriters.append_to_views_training`. -/
def append_to_views_training (dryRun : Bool) (today : String)
    (records : List JVal) (source : String) : Except String MergeResult := do
  let base : MergeResult := {
    target := "FRESH_views_" ++ source ++ "_" ++ today ++ ".csv", action := "append",
    total_records := records.length, new_records := records.length,
    updated_records := 0, skipped_records := 0, key_field := "imdb_id",
    fields_updated := ["views", "hours_viewed", "points", "ranking", "collection_date"] }
  if records.isEmpty then
    return { base with reason := "No records to append" }
  let sample_keys ← (records.take 5).foldlM (fun (acc : List String) r => do
      let k1 ← jGet r "imdb_id" .jnull
      let k2 ← jGet r "tmdb_id" .jnull
      let k3 ← jGet r "title" .jnull
      let key := pyOr (pyOr k1 k2) k3
      if jTruthy key then return acc ++ [strTake (pyStrJ key) 20] else return acc) []
  if dryRun then
    return { base with
             sample_keys := sample_keys
             reason := "[DRY RUN] Would write rows" }
  return { base with sample_keys := sample_keys, reason := "Appended rows" }

/-- `DatabaseWriters.append_to_abstract_data`. -/
def append_to_abstract_data (dryRun : Bool) (nowTs : String)
    (records : List JVal) (signal_type : String) : Except String MergeResult :=
  let base : MergeResult := {
    target := "fresh_" ++ signal_type ++ "_" ++ nowTs ++ ".parquet", action := "append",
    total_records := records.length, new_records := records.length,
    updated_records := 0, skipped_records := 0, key_field := "date",
    fields_updated := ["signal_type", "source", "timestamp", "data"] }
  if records.isEmpty then
    .ok { base with reason := "No signals to append" }
  else if dryRun then
    .ok { base with reason := "[DRY RUN] Would write signals" }
  else
    .ok { base with reason := "Appended signals" }

/-- Python `str.upper()`. -/
def pyUpperStr (s : String) : String := String.mk (s.toList.map Char.toUpper)

/-- `DatabaseWriters.update_streaming_lookup`. -/
def update_streaming_lookup (dryRun : Bool) (country_data : JVal)
    (country : String) : Except String MergeResult := do
  let services_count ←
    match country_data with
    | .jobj _ => do
        let sv ← jGet country_data "services" (.jarr [])
        pyLenJ sv
    | _ => pure 0
  let _ := services_count
  let base : MergeResult := {
    target := "streaming_lookup_" ++ pyLowerStr country ++ ".json", action := "update",
    total_records := 1, new_records := 0, updated_records := 1,
    skipped_records := 0, key_field := "country",
    sample_keys := [pyUpperStr country],
    fields_updated := ["services", "countryCode", "name", "_last_updated"] }
  if dryRun then
    return { base with reason := "[DRY RUN] Would update streaming services" }
  return { base with reason := "Updated streaming services" }

/-! ## Part 2: the orchestrator (VDBFreshInEngine) -/

/-- Engine state that batch execution can touch: the dry-run flag and the
accumulated statistics.  The processed-file set is owned by
`processFile`/`runEngine` alone (nothing below them mutates it) and is
threaded there explicitly. -/
structure EngineSt where
  dryRun : Bool := false
  stats : ProcessingStats := {}
deriving Repr

/-- One candidate input file: its name, its mtime, and the outcome of
parsing it (json.load or read_parquet may raise, modelled as the error
side). -/
inductive FContent where
  | jsonFile (parsed : Except String JVal)
  | parquetFile (loaded : Except String Nat)

structure FileEntry where
  name : String
  mtime : Nat
  content : FContent

/-- The engine's external inputs: the filesystem listing per glob pattern,
the current date/timestamp strings, and the parsed platform-availability
master file. -/
structure Env where
  glob : String → List FileEntry
  today : String
  nowTs : String
  master : List (String × JVal)

/-- Engine-level failure: the raised error message together with the
engine state at the moment of the raise (Python mutations made before an
exception survive it). -/
abbrev EStep (α : Type) := Except (String × EngineSt) α

/-- Helper body of `_normalize_to_records` for a list: keep dict items,
replacing an item by its `data` sub-dict when that exists. -/
def normRecordsList (items : List JVal) : List JVal :=
  items.foldl (fun acc item =>
    match item with
    | .jobj kvs =>
        match assocLookup kvs "data" with
        | some (.jobj inner) => acc ++ [.jobj inner]
        | _ => acc ++ [item]
    | _ => acc) []

/-- `VDBFreshInEngine._normalize_to_records` (the recursive dict cases
call straight into the list case, written here directly). -/
def normalizeToRecords (data : JVal) : List JVal :=
  match data with
  | .jarr items => normRecordsList items
  | .jobj kvs =>
      match assocLookup kvs "data" with
      | some (.jarr xs) => normRecordsList xs
      | _ =>
          match assocLookup kvs "results" with
          | some (.jarr xs) => normRecordsList xs
          | _ => [data]
  | _ => []

/-- `records_routed += decision.records_count` (the unconditional tail of
`_execute_decision` for non-skip, non-V1.20 decisions). -/
def addRouted (st : EngineSt) (decision : RoutingDecision) : EngineSt :=
  { st with stats := { st.stats with
      records_routed := st.stats.records_routed + decision.records_count } }

/-- `VDBFreshInEngine._handle_platform_changes` (V1.20). -/
def handlePlatformChanges (env : Env) (st : EngineSt) (data : JVal) :
    EStep EngineSt :=
  match data with
  | .jobj _ =>
      match jGet data "changes" (.jarr []) with
      | .error e => .error (e, st)
      | .ok changes =>
        match jGet data "shows" (.jobj []) with
        | .error e => .error (e, st)
        | .ok _shows =>
          if !(jTruthy changes) then .ok st
          else
            match update_platform_availability st.dryRun env.master data with
            | .error e => .error (e, st)
            | .ok result =>
                let st2 := { st with stats := { st.stats with
                  platform_changes_processed :=
                    st.stats.platform_changes_processed + result.new_records
                  merge_results := st.stats.merge_results ++ [result] } }
                match pyLenJ changes with
                | .error e => .error (e, st2)
                | .ok n =>
                    .ok { st2 with stats := { st2.stats with
                      records_routed := st2.stats.records_routed + n } }
  | _ => .ok st

/-- `VDBFreshInEngine._handle_flixpatrol_titles` (V1.20). -/
def handleFlixpatrolTitles (st : EngineSt) (data : JVal) : EStep EngineSt :=
  let records : List JVal :=
    match data with
    | .jobj kvs =>
        match assocLookup kvs "data" with
        | some inner =>
            match inner with
            | .jarr xs => xs
            | .jobj _ => [inner]
            | _ => []
        | none => [data]
    | .jarr xs => xs
    | _ => []
  if records.isEmpty then .ok st
  else
    match merge_flixpatrol_to_bfd st.dryRun records with
    | .error e => .error (e, st)
    | .ok result =>
        .ok { st with stats := { st.stats with
          flixpatrol_titles_processed :=
            st.stats.flixpatrol_titles_processed + result.total_records
          bfd_updates := st.stats.bfd_updates + result.total_records
          bfd_new := st.stats.bfd_new + result.new_records
          merge_results := st.stats.merge_results ++ [result]
          records_routed := st.stats.records_routed + result.total_records } }

/-- Python `source_file.split('_')[0]` used for views-training filenames. -/
def headUnderscore (s : String) : String :=
  String.mk (s.toList.takeWhile (fun c => c ≠ '_'))

/-- `VDBFreshInEngine._execute_decision` (vdb_freshin_engine.py lines
1054-1097).  A skip decision only bumps the skipped counter and the skip
details; the V1.20 data types dispatch to their handlers and return; the
remaining targets run their writer and bump their counters, then
records_routed is increased by the decision's record count.  (The lazy
`DatabaseWriters` construction only fixes the dry-run flag, which the
model keeps in the engine state.) -/
def executeDecision (env : Env) (st : EngineSt) (decision : RoutingDecision)
    (data : JVal) : EStep EngineSt :=
  if decision.action = "skip" then
    .ok { st with stats := { st.stats with
      skipped := st.stats.skipped + decision.records_count
      skip_details := st.stats.skip_details ++
        [{ source := decision.source_file, type := decision.data_type.value,
           count := decision.records_count, reason := decision.skip_reason }] } }
  else if decision.data_type = .PLATFORM_CHANGES then
    handlePlatformChanges env st data
  else if decision.data_type = .FLIXPATROL_TITLES then
    handleFlixpatrolTitles st data
  else
    let records := normalizeToRecords data
    if decision.target_db = "BFD" then
      match merge_to_bfd st.dryRun records decision.key_field with
      | .error e => .error (e, st)
      | .ok result =>
          .ok (addRouted { st with stats := { st.stats with
            bfd_updates := st.stats.bfd_updates + result.total_records
            bfd_new := st.stats.bfd_new + result.new_records
            merge_results := st.stats.merge_results ++ [result] } } decision)
    else if decision.target_db = "VIEWS_TRAINING" then
      match append_to_views_training st.dryRun env.today records
          (headUnderscore decision.source_file) with
      | .error e => .error (e, st)
      | .ok result =>
          .ok (addRouted { st with stats := { st.stats with
            views_training_appends := st.stats.views_training_appends + result.total_records
            merge_results := st.stats.merge_results ++ [result] } } decision)
    else if decision.target_db = "ABSTRACT_DATA" then
      match append_to_abstract_data st.dryRun env.nowTs records
          decision.data_type.value with
      | .error e => .error (e, st)
      | .ok result =>
          .ok (addRouted { st with stats := { st.stats with
            abstract_data_appends := st.stats.abstract_data_appends + result.total_records
            merge_results := st.stats.merge_results ++ [result] } } decision)
    else if decision.target_db = "COMPONENTS" then
      match data with
      | .jobj kvs =>
          let stepCountry : EngineSt → String × JVal → EStep EngineSt := fun s2 kv =>
            if !(kv.1 = "type" || kv.1 = "source") then
              match kv.2 with
              | .jobj _ =>
                  (match update_streaming_lookup s2.dryRun kv.2 kv.1 with
                   | .error e => .error (e, s2)
                   | .ok result =>
                      .ok { s2 with stats := { s2.stats with
                        components_updates := s2.stats.components_updates + 1
                        merge_results := s2.stats.merge_results ++ [result] } })
              | _ => .ok s2
            else .ok s2
          match kvs.foldlM stepCountry st with
          | .error es => .error es
          | .ok s2 => .ok (addRouted s2 decision)
      | _ => .ok (addRouted st decision)
    else .ok (addRouted st decision)

/-- `VDBFreshInEngine._route_batch`: count the records in the payload,
classify, route, stamp the human-readable reason, execute, and return the
decision. -/
def routeBatch (env : Env) (st : EngineSt) (source : JVal) (batch_type : JVal)
    (data : JVal) (filename : String) : EStep (EngineSt × RoutingDecision) :=
  let countE : Except String Nat :=
    match data with
    | .jarr xs => .ok xs.length
    | .jobj kvs =>
        match assocLookup kvs "data" with
        | some inner => .ok (match inner with | .jarr xs => xs.length | _ => 1)
        | none =>
            match assocLookup kvs "changes" with
            | some ch => pyLenJ ch
            | none => .ok 1
    | _ => .ok 1
  match countE with
  | .error e => .error (e, st)
  | .ok count =>
    match detect source batch_type (match data with | .jobj _ => some data | _ => none) with
    | .error e => .error (e, st)
    | .ok (data_type, skip_reason) =>
      let d0 := route data_type filename count skip_reason
      let decision := { d0 with
        reason := pyStrJ source ++ "/" ++ pyStrJ batch_type ++ " -> " ++ d0.target_db }
      match executeDecision env st decision data with
      | .error es => .error es
      | .ok st2 => .ok (st2, decision)

/-- `Path(name).stem.split('_')[0]`. -/
def stemHead (name : String) : String :=
  let cs := name.toList
  let stem := if cs.contains '.' then
    ((cs.reverse.dropWhile (fun c => c ≠ '.')).drop 1).reverse
  else cs
  String.mk (stem.takeWhile (fun c => c ≠ '_'))

/-- `VDBFreshInEngine._process_json` on the already-parsed JSON document:
a top-level list is a list of batches; a dict with `results` iterates
them; any other dict is a single default batch; any other document yields
no decisions. -/
def processJson (env : Env) (st : EngineSt) (name : String) (parsed : JVal) :
    EStep (EngineSt × List RoutingDecision) :=
  match parsed with
  | .jarr batches =>
      batches.foldlM (fun (acc : EngineSt × List RoutingDecision) batch =>
        match jGet batch "source" (.jstr "unknown") with
        | .error e => .error (e, acc.1)
        | .ok source =>
          match jGet batch "type" (.jstr "default") with
          | .error e => .error (e, acc.1)
          | .ok batch_type =>
            match jGet batch "data" batch with
            | .error e => .error (e, acc.1)
            | .ok batch_data =>
              match routeBatch env acc.1 source batch_type batch_data name with
              | .error es => .error es
              | .ok (st2, d) => .ok (st2, acc.2 ++ [d])) (st, [])
  | .jobj kvs =>
      match assocLookup kvs "results" with
      | some resultsVal =>
          match pyIter resultsVal with
          | .error e => .error (e, st)
          | .ok results =>
            results.foldlM (fun (acc : EngineSt × List RoutingDecision) result =>
              match jGet result "source" (.jstr (stemHead name)) with
              | .error e => .error (e, acc.1)
              | .ok source =>
                match jGet result "type" (.jstr "default") with
                | .error e => .error (e, acc.1)
                | .ok batch_type =>
                  match jGet result "data" result with
                  | .error e => .error (e, acc.1)
                  | .ok batch_data =>
                    match routeBatch env acc.1 source batch_type batch_data name with
                    | .error es => .error es
                    | .ok (st2, d) => .ok (st2, acc.2 ++ [d])) (st, [])
      | none =>
          match routeBatch env st (.jstr (stemHead name)) (.jstr "default") parsed name with
          | .error es => .error es
          | .ok (st2, d) => .ok (st2, [d])
  | _ => .ok (st, [])

/-- `VDBFreshInEngine._process_parquet`: route the whole file as one
decision (title metadata for cranberry_fresh files, otherwise an
unknown_data_type skip) and execute it with an empty record list. -/
def processParquet (env : Env) (st : EngineSt) (name : String)
    (loaded : Except String Nat) : EStep (EngineSt × List RoutingDecision) :=
  match loaded with
  | .error e => .error (e, st)
  | .ok nrows =>
      let dtr : DataType × String :=
        if containsSub name "cranberry_fresh" then (.TITLE_METADATA, "")
        else (.UNKNOWN, "unknown_data_type")
      let decision := route dtr.1 name nrows dtr.2
      match executeDecision env st decision (.jarr []) with
      | .error es => .error es
      | .ok st2 => .ok (st2, [decision])

/-- The body of `process_file` inside its try block. -/
def processFileInner (env : Env) (st : EngineSt) (f : FileEntry) :
    EStep (EngineSt × List RoutingDecision) :=
  match f.content with
  | .jsonFile parsed =>
      match parsed with
      | .error e => .error (e, st)
      | .ok v => processJson env st f.name v
  | .parquetFile loaded => processParquet env st f.name loaded

/-- `self.processed_files.add(name)` on the list model of the set. -/
def markProcessed (l : List String) (n : String) : List String :=
  if l.contains n then l else l ++ [n]

/-- `VDBFreshInEngine.process_file` (vdb_freshin_engine.py lines 977-993):
on success the file is marked processed and files_processed is bumped; on
any exception the error is recorded (keeping all state mutations made
before the raise) and the file is NOT marked.  Returns the new engine
state, the new processed-file set, and the file's decisions. -/
def processFile (env : Env) (st : EngineSt) (processed : List String)
    (f : FileEntry) : EngineSt × List String × List RoutingDecision :=
  match processFileInner env st f with
  | .ok (st2, decisions) =>
      ({ st2 with stats := { st2.stats with
          files_processed := st2.stats.files_processed + 1 } },
       markProcessed processed f.name, decisions)
  | .error (e, st2) =>
      ({ st2 with stats := { st2.stats with
          errors := st2.stats.errors ++ [f.name ++ ": " ++ e] } },
       processed, [])

/-- The glob patterns of `discover_fresh_files`. -/
def FRESH_PATTERNS : List String :=
  ["fresh_data_*.json", "tmdb_*.json", "flixpatrol_*.json",
   "streaming_availability_*.json", "twitter_trends_*.json",
   "seeking_alpha_*.json", "reuters_*.json", "disney_plus_*.json",
   "imdb_*.json", "cranberry_fresh_*.parquet"]

/-- Insertion step for the newest-first mtime sort. -/
def insertByMtime (f : FileEntry) : List FileEntry → List FileEntry
  | [] => [f]
  | g :: rest => if f.mtime ≥ g.mtime then f :: g :: rest else g :: insertByMtime f rest

/-- `files.sort(key=mtime, reverse=True)`. -/
def sortByMtime : List FileEntry → List FileEntry
  | [] => []
  | f :: rest => insertByMtime f (sortByMtime rest)

/-- The date-filter pass of discovery (`if date_filter:` -- an empty
string is falsy and applies no filter). -/
def datePass (dateFilter : Option String) (files : List FileEntry) : List FileEntry :=
  match dateFilter with
  | some df => if df ≠ "" then files.filter (fun f => containsSub f.name df) else files
  | none => files

/-- `VDBFreshInEngine.discover_fresh_files` (lines 958-975): collect the
glob results for every pattern, keep files whose name contains the date
filter (when given), drop files whose name is already in the processed
set, and sort newest first. -/
def discoverFreshFiles (env : Env) (dateFilter : Option String)
    (processed : List String) : List FileEntry :=
  sortByMtime
    ((datePass dateFilter
        (FRESH_PATTERNS.foldl (fun acc p => acc ++ env.glob p)
          ([] : List FileEntry))).filter
      (fun f => !(processed.contains f.name)))

/-- The discovery call of `run()`: defaults the date filter to today
unless --all was given, and discovers with no filter under --all. -/
def runDiscover (env : Env) (dateFilter : Option String) (processAll : Bool)
    (processed : List String) : List FileEntry :=
  let df := if dateFilter.isNone && !processAll then some env.today else dateFilter
  discoverFreshFiles env (if !processAll then df else none) processed

/-- The per-file loop of `run()`, additionally producing a trace that
pairs each processed file name with the MergeResults its processing
appended. -/
def runLoop (env : Env) (st : EngineSt) (processed : List String) :
    List FileEntry →
      EngineSt × List String × List (String × List MergeResult) × List RoutingDecision
  | [] => (st, processed, [], [])
  | f :: rest =>
      let step := processFile env st processed f
      let newResults := step.1.stats.merge_results.drop st.stats.merge_results.length
      let tail := runLoop env step.1 step.2.1 rest
      (tail.1, tail.2.1, (f.name, newResults) :: tail.2.2.1, step.2.2 ++ tail.2.2.2)

/-- The observable outcome of one `run()`. -/
structure RunOut where
  stats : ProcessingStats
  processedFiles : List String
  persisted : Option (List String)
  trace : List (String × List MergeResult)
  decisions : List RoutingDecision

/-- `VDBFreshInEngine.run` (without the audit-report rendering, which
reads but never writes engine state): discover, process each file, then
persist the processed-file state -- except that with no discovered files
the function returns before `_save_state`, so nothing is persisted. -/
def runEngine (env : Env) (dateFilter : Option String) (processAll : Bool)
    (dryRun : Bool) (initProcessed : List String) : RunOut :=
  let files := runDiscover env dateFilter processAll initProcessed
  if files.isEmpty then
    { stats := {}, processedFiles := initProcessed, persisted := none,
      trace := [], decisions := [] }
  else
    let r := runLoop env { dryRun := dryRun } initProcessed files
    { stats := r.1.stats, processedFiles := r.2.1, persisted := some r.2.1,
      trace := r.2.2.1, decisions := r.2.2.2 }

/-! ## Part 2 helper lemmas -/

lemma markProcessed_contains_self (l : List String) (n : String) :
    (markProcessed l n).contains n = true := by
  unfold markProcessed
  by_cases h : n ∈ l
  · simp [h]
  · simp [h]

lemma markProcessed_mono (l : List String) (m n : String)
    (h : l.contains n = true) : (markProcessed l m).contains n = true := by
  have hn : n ∈ l := by simpa using h
  unfold markProcessed
  by_cases hm : m ∈ l
  · simp [hm, hn]
  · simp [hm]
    exact Or.inl hn

lemma mem_insertByMtime (f g : FileEntry) (l : List FileEntry)
    (h : g ∈ insertByMtime f l) : g = f ∨ g ∈ l := by
  induction l with
  | nil => simpa [insertByMtime] using h
  | cons x xs ih =>
      unfold insertByMtime at h
      by_cases hc : f.mtime ≥ x.mtime
      · rw [if_pos hc] at h
        rcases List.mem_cons.mp h with h | h
        · exact Or.inl h
        · exact Or.inr h
      · rw [if_neg hc] at h
        rcases List.mem_cons.mp h with h | h
        · exact Or.inr (List.mem_cons.mpr (Or.inl h))
        · rcases ih h with h | h
          · exact Or.inl h
          · exact Or.inr (List.mem_cons.mpr (Or.inr h))

lemma mem_sortByMtime (g : FileEntry) (l : List FileEntry)
    (h : g ∈ sortByMtime l) : g ∈ l := by
  induction l with
  | nil => simp [sortByMtime] at h
  | cons x xs ih =>
      unfold sortByMtime at h
      rcases mem_insertByMtime x g _ h with h | h
      · simp [h]
      · simp [ih h]

lemma discover_excludes (env : Env) (df : Option String) (processed : List String)
    (fname : String) (h : processed.contains fname = true) :
    ∀ g ∈ discoverFreshFiles env df processed, g.name ≠ fname := by
  intro g hg heq
  unfold discoverFreshFiles at hg
  have hg2 := mem_sortByMtime g _ hg
  have hkeep := List.of_mem_filter hg2
  rw [heq] at hkeep
  exact (by simpa using hkeep : fname ∉ processed) (by simpa using h)

lemma runLoop_trace_names (env : Env) (files : List FileEntry) :
    ∀ (st : EngineSt) (processed : List String),
      ∀ p ∈ (runLoop env st processed files).2.2.1, ∃ f ∈ files, p.1 = f.name := by
  induction files with
  | nil =>
      intro st processed p hp
      simp [runLoop] at hp
  | cons f rest ih =>
      intro st processed p hp
      simp only [runLoop] at hp
      rcases List.mem_cons.mp hp with h | h
      · exact ⟨f, List.mem_cons_self f rest, by rw [h]⟩
      · rcases ih _ _ p h with ⟨g, hg, hpn⟩
        exact ⟨g, List.mem_cons.mpr (Or.inr hg), hpn⟩

/-! ## Claim theorems for Part 2 -/

/-- C7: a batch whose source is not in the static provider table, with any
batch type and an empty-dict payload, classifies as (UNKNOWN,
unknown_source); the router gives a skip decision targeting SKIP; and
executing that decision through `_route_batch` adds the record count 1 (a
dict payload with no list) to the skipped counter and appends one skip
detail, leaving every merge/append counter and the MergeResult list
unchanged (the resulting state differs from the input state only in those
two fields). -/
theorem c7_unknown_source_skips (source btype fname : String) (env : Env) (st : EngineSt)
    (h : assocLookup SOURCE_MAPPING (pyLowerStr source) = none) :
    detect (.jstr source) (.jstr btype) (some (.jobj [])) = .ok (.UNKNOWN, "unknown_source") ∧
    (route .UNKNOWN fname 1 "unknown_source").action = "skip" ∧
    (route .UNKNOWN fname 1 "unknown_source").target_db = "SKIP" ∧
    routeBatch env st (.jstr source) (.jstr btype) (.jobj []) fname =
      .ok ({ st with stats := { st.stats with
               skipped := st.stats.skipped + 1
               skip_details := st.stats.skip_details ++
                 [{ source := fname, type := "unknown", count := 1,
                    reason := "unknown_source" }] } },
           { route .UNKNOWN fname 1 "unknown_source" with
             reason := source ++ "/" ++ btype ++ " -> SKIP" }) := by
  have hdet : detect (.jstr source) (.jstr btype) (some (.jobj [])) =
      .ok (.UNKNOWN, "unknown_source") := by
    simp [detect, h, detectTail, jTruthy]
  refine ⟨hdet, rfl, rfl, ?_⟩
  simp only [routeBatch, assocLookup]
  rw [hdet]
  simp only [executeDecision, route, ROUTING_TABLE, DataType.value, pyStrJ]
  simp [String.append_assoc]

/-- Concrete objects exercising claims C7 to C9. -/
def envNull : Env :=
  { glob := fun _ => [], today := "20260101", nowTs := "20260101_110000", master := [] }

/-- Witness for C7 at the concrete batch of the spec scenario:
source "unknown_api", type "x", payload an empty dict. -/
theorem c7_unknown_source_skips_witness :
    detect (.jstr "unknown_api") (.jstr "x") (some (.jobj [])) =
      .ok (.UNKNOWN, "unknown_source") ∧
    (route .UNKNOWN "f.json" 1 "unknown_source").action = "skip" ∧
    (route .UNKNOWN "f.json" 1 "unknown_source").target_db = "SKIP" ∧
    routeBatch envNull {} (.jstr "unknown_api") (.jstr "x") (.jobj []) "f.json" =
      .ok ({ ({} : EngineSt) with stats := { ({} : EngineSt).stats with
               skipped := ({} : EngineSt).stats.skipped + 1
               skip_details := ({} : EngineSt).stats.skip_details ++
                 [{ source := "f.json", type := "unknown", count := 1,
                    reason := "unknown_source" }] } },
           { route .UNKNOWN "f.json" 1 "unknown_source" with
             reason := "unknown_api" ++ "/" ++ "x" ++ " -> SKIP" }) :=
  c7_unknown_source_skips "unknown_api" "x" "f.json" envNull {} (by decide)

/-- A file that parses fine but whose batch list holds a non-dict batch,
so batch execution raises AttributeError at `batch.get('source', ...)`. -/
def badBatchFile : FileEntry :=
  { name := "fresh_data_bad.json", mtime := 0,
    content := .jsonFile (.ok (.jarr [.jnum 42])) }

/-- C9 counterexample: `badBatchFile` is successfully parsed (its content
is an ok json.load result), yet after processing it the processed-file
set is still empty -- the file was NOT added -- while the error was
recorded.  This refutes "every successfully parsed file is added to the
processed-file set ... regardless of whether every batch inside it
succeeded": the marking sits after the batch loop inside the try block,
so an escaping batch exception skips it. -/
theorem c9_processed_marking_counterexample :
    badBatchFile.content = .jsonFile (.ok (.jarr [.jnum 42])) ∧
    (processFile envNull {} [] badBatchFile).2.1 = [] ∧
    (processFile envNull {} [] badBatchFile).1.stats.errors =
      ["fresh_data_bad.json: AttributeError"] :=
  ⟨rfl, rfl, rfl⟩

/-- C9 amended: a file is marked processed (and files_processed bumped)
exactly when its whole per-batch processing finishes without an uncaught
exception -- skip decisions and zero-merge batches do not raise, so such
files are still marked; when an exception escapes batch execution the
error is recorded in the error list, that file is NOT marked, and the
markings of previously processed files are untouched. -/
theorem c9_processed_marking_amended (env : Env) (st : EngineSt)
    (processed : List String) (f : FileEntry) :
    (∀ st2 ds, processFileInner env st f = .ok (st2, ds) →
      processFile env st processed f =
        ({ st2 with stats := { st2.stats with
            files_processed := st2.stats.files_processed + 1 } },
         markProcessed processed f.name, ds) ∧
      (processFile env st processed f).2.1.contains f.name = true) ∧
    (∀ e st2, processFileInner env st f = .error (e, st2) →
      processFile env st processed f =
        ({ st2 with stats := { st2.stats with
            errors := st2.stats.errors ++ [f.name ++ ": " ++ e] } },
         processed, []) ∧
      (processFile env st processed f).2.1 = processed) ∧
    (∀ n, processed.contains n = true →
      (processFile env st processed f).2.1.contains n = true) := by
  refine ⟨?_, ?_, ?_⟩
  · intro st2 ds hok
    unfold processFile
    rw [hok]
    exact ⟨rfl, markProcessed_contains_self processed f.name⟩
  · intro e st2 herr
    unfold processFile
    rw [herr]
    exact ⟨rfl, rfl⟩
  · intro n hn
    unfold processFile
    cases hcase : processFileInner env st f with
    | ok v => exact markProcessed_mono processed f.name n hn
    | error v => exact hn

/-- Witness for C9 amended: a file whose only batch is skipped (unknown
source) is still marked processed, discharging the ok-branch hypothesis
at a concrete input. -/
def skippyFile : FileEntry :=
  { name := "fresh_data_skippy.json", mtime := 0,
    content := .jsonFile (.ok (.jarr [.jobj [("source", .jstr "unknown_api"),
      ("type", .jstr "x"), ("data", .jobj [])]])) }

theorem c9_processed_marking_amended_witness :
    (processFile envNull {} [] skippyFile).2.1.contains "fresh_data_skippy.json" = true :=
  ((c9_processed_marking_amended envNull {} [] skippyFile).1
    { stats := { skipped := 1,
                 skip_details := [{ source := "fresh_data_skippy.json", type := "unknown",
                                    count := 1, reason := "unknown_source" }] } }
    [{ route .UNKNOWN "fresh_data_skippy.json" 1 "unknown_source" with
       reason := "unknown_api/x -> SKIP" }]
    (by rfl)).2

/-- C8: if a run over a directory persisted a processed-file state s2 and
a file name is in s2 (as is every file processed by that run), then a
second run over the same directory using s2 excludes that file at
discovery, and the second run's trace carries no MergeResults for that
file: re-running re-applies none of its updates. -/
theorem c8_rerun_idempotent (env : Env) (dfA dfB : Option String)
    (paA paB dryA dryB : Bool) (s1 s2 : List String) (fname : String)
    (_hpers : (runEngine env dfA paA dryA s1).persisted = some s2)
    (hproc : s2.contains fname = true) :
    (∀ g ∈ runDiscover env dfB paB s2, g.name ≠ fname) ∧
    (runEngine env dfB paB dryB s2).trace.filter
      (fun p => p.1 == fname) = [] := by
  have hd : ∀ g ∈ runDiscover env dfB paB s2, g.name ≠ fname := by
    intro g hg
    unfold runDiscover at hg
    exact discover_excludes env _ s2 fname hproc g hg
  refine ⟨hd, ?_⟩
  unfold runEngine
  by_cases hempty : (runDiscover env dfB paB s2).isEmpty
  · simp [hempty]
  · simp only [hempty, Bool.false_eq_true, if_false]
    rw [List.filter_eq_nil_iff]
    intro p hp
    rcases runLoop_trace_names env (runDiscover env dfB paB s2)
      { dryRun := dryB } s2 p hp with ⟨g, hg, hpn⟩
    have hne := hd g hg
    simp [hpn, hne]

/-- A filesystem with one fresh tmdb file holding an empty batch list. -/
def fileW : FileEntry :=
  { name := "tmdb_20260101.json", mtime := 5,
    content := .jsonFile (.ok (.jarr [])) }

def envW : Env :=
  { glob := fun p => if p = "tmdb_*.json" then [fileW] else []
    today := "20260101", nowTs := "20260101_110000", master := [] }

/-- Witness for C8: a first run over envW processes and persists
tmdb_20260101.json; the second run with that state discovers nothing for
it and traces no MergeResults for it. -/
theorem c8_rerun_idempotent_witness :
    (∀ g ∈ runDiscover envW none true ["tmdb_20260101.json"],
      g.name ≠ "tmdb_20260101.json") ∧
    (runEngine envW none true false ["tmdb_20260101.json"]).trace.filter
      (fun p => p.1 == "tmdb_20260101.json") = [] :=
  c8_rerun_idempotent envW none none true true false false []
    ["tmdb_20260101.json"] "tmdb_20260101.json" rfl (by decide)
